import Mathlib

/-!
# Page resolution and dual-path retrieval of the MangaDex gateway

A shallow embedding of the download handler of `src/main.go`
(route `/api/chapter/:id/download/:page`, lines 306-362) together with the
two client methods it calls, `GetChapterPages` (lines 199-214) and
`DownloadMangaImage` (lines 217-232).

Everything outside the process (the metadata API, the image host, the
headless browser, the operating system's file calls) is an explicit
environment `Env` that answers each call; the filesystem is an explicit
state `FS` threaded through the handler.  A call of the browser driver that
blocks forever produces no answer and is not represented: every statement is
about requests whose external calls return.
-/

namespace MangaDex

/-! ## Data model (`src/main.go`, lines 103-113) -/

/-- Go struct `Chapter`. -/
structure Chapter where
  Hash : String
  Data : List String
  DataSaver : List String
deriving DecidableEq

/-- Go struct `ChapterPages`. -/
structure ChapterPages where
  Result : String
  BaseURL : String
  Chapter : Chapter
deriving DecidableEq

/-- Go constant `BaseURL` (line 19). -/
def BaseURL : String := "https://api.mangadex.org"

/-- Raw bytes of a response body or of a file, one number per byte. -/
abbrev Bytes := List Nat

/-! ## `strconv.Atoi` of the Go standard library

The handler calls `strconv.Atoi(pageNum)` and drops the error (line 319).
The model follows the library routine for a 64-bit `int`: a fast path for
strings of 1 to 18 bytes and `ParseInt(s, 10, 0)` otherwise.  A Go string is
a byte sequence; here it is a Lean `String`, its length in bytes is
`String.utf8ByteSize`, and it is scanned character by character, which
agrees with the byte scan because every byte of a multi-byte character is
at least `0x80` and so is no digit and no sign.
-/

/-- The two error kinds of `strconv.NumError`. -/
inductive NumError where
  | ErrSyntax
  | ErrRange
deriving DecidableEq

/-- Byte test `'0' <= c && c <= '9'`. -/
def isDigit (c : Char) : Bool := decide (48 ≤ c.toNat) && decide (c.toNat ≤ 57)

/-- Digit value `c - '0'`. -/
def digitVal (c : Char) : Nat := c.toNat - 48

/-- Byte test `s[0] == '-' || s[0] == '+'`. -/
def isSign (c : Char) : Bool := c == '-' || c == '+'

/-- Largest `uint64`. -/
def maxUint64 : Nat := 2 ^ 64 - 1

/-- Digit loop of the fast path of `Atoi`: `none` is the syntax error
returned at the first byte that is no digit.  At most 18 digits are read, so
`n` stays below `2 ^ 63` and no wrap-around occurs. -/
def atoiFastLoop : List Char → Nat → Option Nat
  | [], n => some n
  | ch :: rest, n =>
    if isDigit ch then atoiFastLoop rest (n * 10 + digitVal ch) else none

/-- Digit loop of `ParseUint(s, 10, 64)` on `uint64` arithmetic.  A letter
has digit value at least 10, the base, and any other byte falls to the
default case: both return `0` with a syntax error (underscores are accepted
only with base 0).  Overflow returns at once, before the rest is read. -/
def parseUintLoop : List Char → Nat → Nat × Option NumError
  | [], n => (n, none)
  | c :: rest, n =>
    if isDigit c then
      if n ≥ maxUint64 / 10 + 1 then (maxUint64, some NumError.ErrRange)
      else
        let n10 := n * 10 % 2 ^ 64
        let n1 := (n10 + digitVal c) % 2 ^ 64
        if n1 < n10 ∨ n1 > maxUint64 then (maxUint64, some NumError.ErrRange)
        else parseUintLoop rest n1
    else (0, some NumError.ErrSyntax)

/-- Library routine `ParseUint(s, 10, 64)`. -/
def ParseUint (s : List Char) : Nat × Option NumError :=
  match s with
  | [] => (0, some NumError.ErrSyntax)
  | _ :: _ => parseUintLoop s 0

/-- Library routine `ParseInt(s, 10, 0)` with a 64-bit `int`. -/
def ParseInt (s : List Char) : Int × Option NumError :=
  match s with
  | [] => (0, some NumError.ErrSyntax)
  | c :: rest =>
    let neg : Bool := c == '-'
    let body := if c == '+' || c == '-' then rest else c :: rest
    match ParseUint body with
    | (_, some NumError.ErrSyntax) => (0, some NumError.ErrSyntax)
    | (un, _) =>
      let cutoff : Nat := 2 ^ 63
      if !neg && decide (un ≥ cutoff) then (((cutoff - 1 : Nat) : Int), some NumError.ErrRange)
      else if neg && decide (un > cutoff) then (-(cutoff : Int), some NumError.ErrRange)
      else (if neg then -(un : Int) else (un : Int), none)

/-- Library routine `strconv.Atoi`: the value and the error, if any. -/
def Atoi (s : String) : Int × Option NumError :=
  let sLen := s.utf8ByteSize
  if 0 < sLen ∧ sLen < 19 then
    match s.data with
    | [] => (0, some NumError.ErrSyntax)
    | c0 :: rest =>
      let digits := if isSign c0 then rest else c0 :: rest
      if isSign c0 && digits.isEmpty then (0, some NumError.ErrSyntax)
      else
        match atoiFastLoop digits 0 with
        | none => (0, some NumError.ErrSyntax)
        | some n => (if c0 == '-' then -(n : Int) else (n : Int), none)
  else ParseInt s.data

/-! ## Page selection (`src/main.go`, lines 318-332) -/

/-- Why the selection step yields no URL: the handler's own rejection
(line 321) or a run-time panic of a slice index out of range. -/
inductive SelectError where
  | invalidPage
  | indexOutOfRange
deriving DecidableEq

/-- Go slice indexing `xs[i]` with an `int` index: `none` is the panic. -/
def indexAt (xs : List String) (i : Int) : Option String :=
  if i < 0 then none else xs[i.toNat]?

/-- The bounds check of line 321 followed by the quality branch of lines
326-332; `fmt.Sprintf` with three `%s` verbs is concatenation. -/
def selectPage (pages : ChapterPages) (quality : String) (pageNumInt : Int) :
    Except SelectError String :=
  if pageNumInt < 0 ∨ pageNumInt ≥ (pages.Chapter.Data.length : Int) then
    Except.error SelectError.invalidPage
  else if quality = "data-saver" ∧ (pages.Chapter.DataSaver.length : Int) > pageNumInt then
    match indexAt pages.Chapter.DataSaver pageNumInt with
    | some ref =>
      Except.ok (pages.BaseURL ++ "/data-saver/" ++ pages.Chapter.Hash ++ "/" ++ ref)
    | none => Except.error SelectError.indexOutOfRange
  else
    match indexAt pages.Chapter.Data pageNumInt with
    | some ref =>
      Except.ok (pages.BaseURL ++ "/data/" ++ pages.Chapter.Hash ++ "/" ++ ref)
    | none => Except.error SelectError.indexOutOfRange

/-- The list that the quality branch of line 326 indexes. -/
def selectedList (pages : ChapterPages) (quality : String) (pageNumInt : Int) : List String :=
  if quality = "data-saver" ∧ (pages.Chapter.DataSaver.length : Int) > pageNumInt then
    pages.Chapter.DataSaver
  else pages.Chapter.Data

/-! ## The environment of one request -/

/-- What `mdc.httpClient.Get(url)` followed by `json.NewDecoder(resp.Body).Decode`
observes (lines 202-211): a transport error, or a response with its status
code and the outcome of decoding its body into a `ChapterPages` value
(fields absent from the JSON keep their zero values). -/
inductive ApiAnswer where
  | transportError (msg : String)
  | response (StatusCode : Nat) (decoded : Except String ChapterPages)

/-- Why `http.Get` returns a non-nil error. -/
inductive TransportCause where
  | connection
  | timeout
  | other
deriving DecidableEq

/-- What `http.Get(pageURL)` returns (line 335): a non-nil error, or a
response, whatever its status code. -/
inductive FetchAnswer where
  | transportError (cause : TransportCause)
  | response (StatusCode : Nat) (ContentType : String) (Body : Bytes)

/-- The browser part of `DownloadMangaImage` (lines 218-228): one of the
`Must` calls panics, or `MustScreenshot` returns the pixel buffer. -/
inductive RenderAnswer where
  | panicked
  | screenshot (data : Bytes)

/-- How `os.WriteFile` ends (line 231).  It opens the file with
`O_WRONLY|O_CREATE|O_TRUNC`, writes, closes: the open can fail, leaving the
filesystem untouched, or the write or close can fail after the file was
created, leaving the first `n` bytes. -/
inductive WriteAnswer where
  | openFailed
  | writeFailed (n : Nat)
  | ok

/-- How `http.ServeFile` sends an opened file, which depends on the caller's
request headers and connection: the whole file (status 200), the byte range
a `Range` header asks for (status 206), or no byte of the file (a
conditional request answered 304, an unsatisfiable range answered 416, or a
send that breaks). -/
inductive ServeAnswer where
  | whole
  | range (start length : Nat)
  | nothing

/-- Answers of the outside world to the calls of one request. -/
structure Env where
  apiGet : String → ApiAnswer
  httpGet : String → FetchAnswer
  render : String → RenderAnswer
  writeFile : String → Bytes → WriteAnswer
  serve : ServeAnswer

/-- The working directory: file name to content. -/
abbrev FS := String → Option Bytes

/-- The filesystem after `name` holds `data`. -/
def FS.write (fs : FS) (name : String) (data : Bytes) : FS :=
  fun n => if n = name then some data else fs n

/-- The filesystem after `os.Remove(name)`. -/
def FS.remove (fs : FS) (name : String) : FS :=
  fun n => if n = name then none else fs n

/-- The filesystem with no file. -/
def FS.empty : FS := fun _ => none

/-! ## Client methods -/

/-- Method `GetChapterPages` (lines 199-214).  The status code of the
response is not inspected. -/
def GetChapterPages (env : Env) (chapterID : String) : Except String ChapterPages :=
  let url := BaseURL ++ "/at-home/server/" ++ chapterID
  match env.apiGet url with
  | ApiAnswer.transportError err => Except.error err
  | ApiAnswer.response _ decoded =>
    match decoded with
    | Except.error err => Except.error err
    | Except.ok pagesResp => Except.ok pagesResp

/-- How a call that may panic ends. -/
inductive CallResult where
  | ok
  | error (msg : String)
  | panic
deriving DecidableEq

/-- Library routine `os.WriteFile` on the explicit filesystem. -/
def WriteFile (env : Env) (fs : FS) (name : String) (data : Bytes) : CallResult × FS :=
  match env.writeFile name data with
  | WriteAnswer.openFailed => (CallResult.error "open", fs)
  | WriteAnswer.writeFailed n => (CallResult.error "write", fs.write name (data.take n))
  | WriteAnswer.ok => (CallResult.ok, fs.write name data)

/-- Method `DownloadMangaImage` (lines 217-232). -/
def DownloadMangaImage (env : Env) (fs : FS) (url outputPath : String) : CallResult × FS :=
  match env.render url with
  | RenderAnswer.panicked => (CallResult.panic, fs)
  | RenderAnswer.screenshot data => WriteFile env fs outputPath data

/-! ## The download handler (`src/main.go`, lines 306-362) -/

/-- What the caller receives. -/
inductive Response where
  /-- Call `c.JSON(status, gin.H{"error": msg})`. -/
  | json (status : Nat) (error : String)
  /-- Calls `c.Header("Content-Type", contentType)` and `io.Copy(c.Writer, resp.Body)`. -/
  | stream (contentType : String) (body : Bytes)
  /-- Call `c.File(tempFile)` that sent the whole file (status 200). -/
  | file (body : Bytes)
  /-- Call `c.File(tempFile)` that sent a byte range of the file (status 206). -/
  | filePart (body : Bytes)
  /-- Call `c.File(tempFile)` that redirected a request path ending in `/index.html`. -/
  | fileRedirect
  /-- Call `c.File(tempFile)` that sent no byte of the file. -/
  | fileFailed
  /-- The recovery handler of `gin.Default()` answering a panic with status 500. -/
  | recovered
deriving DecidableEq

/-- External calls of one request, in order. -/
inductive Event where
  | getChapterPages (chapterID : String)
  | httpGet (url : String)
  | downloadMangaImage (url outputPath : String)
  | file (path : String)
  | remove (path : String)
deriving DecidableEq

/-- Result of one request: the response, the calls made, the filesystem left. -/
structure Outcome where
  response : Response
  trace : List Event
  fs : FS

/-- Gin call `c.DefaultQuery(key, defaultValue)` on the value of the key, if present. -/
def DefaultQuery (value : Option String) (defaultValue : String) : String :=
  value.getD defaultValue

/-- Name of the transient file, `fmt.Sprintf("temp_%s_%s.jpg", id, pageNum)` (line 338). -/
def tempFileName (id pageNum : String) : String :=
  "temp_" ++ id ++ "_" ++ pageNum ++ ".jpg"

/-- The path of the request URL that the route `/api/chapter/:id/download/:page`
matched with these two parameters. -/
def requestPath (id pageNum : String) : String :=
  "/api/chapter/" ++ id ++ "/download/" ++ pageNum

/-- Library test `isSlashRune` of `net/http`. -/
def isSlashRune (c : Char) : Bool := c == '/' || c == '\\'

/-- Library test `containsDotDot` of `net/http`: some element of the path,
split at slashes and backslashes, is "..". -/
def containsDotDot (v : String) : Bool :=
  (List.splitOnP isSlashRune v.data).any (fun ent => ent == ['.', '.'])

/-- Gin call `c.File(path)`, which is `http.ServeFile(c.Writer, c.Request, path)`:
a request path with a ".." element is answered 400, one ending in
`/index.html` is redirected, a file that cannot be opened is answered with
an error, and otherwise the content the file has at that moment is sent as
the request's headers and the connection allow. -/
def File (env : Env) (fs : FS) (urlPath path : String) : Response :=
  if containsDotDot urlPath then Response.fileFailed
  else if List.isSuffixOf "/index.html".data urlPath.data then Response.fileRedirect
  else
    match fs path with
    | none => Response.fileFailed
    | some body =>
      match env.serve with
      | ServeAnswer.whole => Response.file body
      | ServeAnswer.range start length => Response.filePart ((body.drop start).take length)
      | ServeAnswer.nothing => Response.fileFailed

/-- The handler of `/api/chapter/:id/download/:page`. -/
def downloadHandler (env : Env) (fs : FS) (id pageNum : String) (qualityQuery : Option String) :
    Outcome :=
  let quality := DefaultQuery qualityQuery "data"
  let t0 := [Event.getChapterPages id]
  match GetChapterPages env id with
  | Except.error err => ⟨Response.json 500 err, t0, fs⟩
  | Except.ok pages =>
    let pageNumInt := (Atoi pageNum).1
    match selectPage pages quality pageNumInt with
    | Except.error SelectError.invalidPage => ⟨Response.json 400 "Invalid page number", t0, fs⟩
    | Except.error SelectError.indexOutOfRange => ⟨Response.recovered, t0, fs⟩
    | Except.ok pageURL =>
      match env.httpGet pageURL with
      | FetchAnswer.transportError _ =>
        let tempFile := tempFileName id pageNum
        let t1 := t0 ++ [Event.httpGet pageURL, Event.downloadMangaImage pageURL tempFile]
        match DownloadMangaImage env fs pageURL tempFile with
        | (CallResult.panic, fs1) => ⟨Response.recovered, t1, fs1⟩
        | (CallResult.error _, fs1) => ⟨Response.json 500 "Failed to download page", t1, fs1⟩
        | (CallResult.ok, fs1) =>
          ⟨File env fs1 (requestPath id pageNum) tempFile,
            t1 ++ [Event.file tempFile, Event.remove tempFile], fs1.remove tempFile⟩
      | FetchAnswer.response _ contentType body =>
        ⟨Response.stream (if contentType = "" then "image/jpeg" else contentType) body,
          t0 ++ [Event.httpGet pageURL], fs⟩

/-- Is the event the direct fetch. -/
def Event.isFetch : Event → Bool
  | Event.httpGet _ => true
  | _ => false

/-- Is the event the render fallback. -/
def Event.isRender : Event → Bool
  | Event.downloadMangaImage _ _ => true
  | _ => false

/-! ## Concrete inputs used by the witnesses -/

/-- A manifest with five standard and three reduced references. -/
def manifest53 : ChapterPages :=
  ⟨"ok", "https://cdn.example", ⟨"h4sh", ["p0.png", "p1.png", "p2.png", "p3.png", "p4.png"],
    ["s0.jpg", "s1.jpg", "s2.jpg"]⟩⟩

/-- A manifest whose reduced list is longer than its standard list. -/
def manifest01 : ChapterPages :=
  ⟨"ok", "https://cdn.example", ⟨"h4sh", [], ["s0.jpg"]⟩⟩

/-- An environment that gives the same answer to every call of a kind. -/
def constEnv (api : ApiAnswer) (fetch : FetchAnswer) (render : RenderAnswer)
    (write : WriteAnswer) (serve : ServeAnswer) : Env :=
  ⟨fun _ => api, fun _ => fetch, fun _ => render, fun _ _ => write, serve⟩

/-- The metadata API serves `manifest53` and the image host answers 200 with a PNG. -/
def envDirect : Env :=
  constEnv (ApiAnswer.response 200 (Except.ok manifest53))
    (FetchAnswer.response 200 "image/png" [137, 80, 78, 71]) RenderAnswer.panicked
    WriteAnswer.ok ServeAnswer.whole

/-- The metadata API serves `manifest01`. -/
def envShortStandard : Env :=
  constEnv (ApiAnswer.response 200 (Except.ok manifest01))
    (FetchAnswer.response 200 "image/png" [137, 80, 78, 71]) RenderAnswer.panicked
    WriteAnswer.ok ServeAnswer.whole

/-- The image host answers 404 with an HTML body. -/
def envNotFoundImage : Env :=
  constEnv (ApiAnswer.response 200 (Except.ok manifest53))
    (FetchAnswer.response 404 "text/html" [60, 104, 49, 62]) RenderAnswer.panicked
    WriteAnswer.ok ServeAnswer.whole

/-- The direct fetch times out; the browser captures four bytes and the write succeeds. -/
def envFallback : Env :=
  constEnv (ApiAnswer.response 200 (Except.ok manifest53))
    (FetchAnswer.transportError TransportCause.timeout)
    (RenderAnswer.screenshot [255, 216, 255, 224]) WriteAnswer.ok ServeAnswer.whole

/-- The direct fetch cannot connect and the browser panics. -/
def envRenderPanics : Env :=
  constEnv (ApiAnswer.response 200 (Except.ok manifest53))
    (FetchAnswer.transportError TransportCause.connection) RenderAnswer.panicked
    WriteAnswer.ok ServeAnswer.whole

/-- The direct fetch cannot connect; the browser captures four bytes; the
write creates the file and fails after one byte (a full disk). -/
def envWriteFails : Env :=
  constEnv (ApiAnswer.response 200 (Except.ok manifest53))
    (FetchAnswer.transportError TransportCause.connection)
    (RenderAnswer.screenshot [255, 216, 255, 224]) (WriteAnswer.writeFailed 1) ServeAnswer.whole

/-- The body the metadata API sends for an unknown chapter, decoded: the
result is "error" and the page lists are absent. -/
def unknownChapterBody : ChapterPages := ⟨"error", "", ⟨"", [], []⟩⟩

/-- The metadata API answers 404 with the unknown-chapter body. -/
def envUnknownChapter : Env :=
  constEnv (ApiAnswer.response 404 (Except.ok unknownChapterBody))
    (FetchAnswer.response 200 "image/png" [137, 80, 78, 71]) RenderAnswer.panicked
    WriteAnswer.ok ServeAnswer.whole

/-! ## Decimal strings on the specification side -/

/-- The string without its optional leading sign. -/
def unsignedPart (cs : List Char) : List Char :=
  match cs with
  | [] => []
  | c :: rest => if isSign c then rest else c :: rest

/-- A valid decimal integer: an optional sign followed by one or more digits. -/
def isDecimal (s : String) : Bool :=
  !(unsignedPart s.data).isEmpty && (unsignedPart s.data).all isDigit

/-- Value of a run of decimal digits read after the value `n`. -/
def decimalValueFrom (n : Nat) (cs : List Char) : Nat :=
  cs.foldl (fun acc c => acc * 10 + digitVal c) n

/-- The digits between the optional sign and the first byte that is no digit. -/
def leadingDigits (s : String) : List Char :=
  (unsignedPart s.data).takeWhile isDigit

/-! # Theorems -/

/-! ## Shared lemmas -/

theorem indexAt_natCast (xs : List String) (i : Nat) (h : i < xs.length) :
    indexAt xs (i : Int) = some (xs.get ⟨i, h⟩) := by
  unfold indexAt
  have h0 : ¬ ((i : Int) < 0) := by omega
  simp [h0, List.getElem?_eq_getElem h]

theorem selectPage_invalid_iff (pages : ChapterPages) (quality : String) (i : Int) :
    selectPage pages quality i = Except.error SelectError.invalidPage ↔
      (i < 0 ∨ i ≥ (pages.Chapter.Data.length : Int)) := by
  unfold selectPage
  by_cases h : i < 0 ∨ i ≥ (pages.Chapter.Data.length : Int)
  · simp [h]
  · simp only [h, if_false, iff_false]
    obtain ⟨n, rfl⟩ := Int.eq_ofNat_of_zero_le (by omega : 0 ≤ i)
    have hn : n < pages.Chapter.Data.length := by omega
    split
    · rename_i hq
      have hs : n < pages.Chapter.DataSaver.length := by omega
      rw [indexAt_natCast _ n hs]; simp
    · rw [indexAt_natCast _ n hn]; simp

theorem selectPage_reduced (pages : ChapterPages) (i : Nat)
    (hs : i < pages.Chapter.DataSaver.length) (hd : i < pages.Chapter.Data.length) :
    selectPage pages "data-saver" (i : Int) =
      Except.ok (pages.BaseURL ++ "/data-saver/" ++ pages.Chapter.Hash ++ "/" ++
        pages.Chapter.DataSaver.get ⟨i, hs⟩) := by
  unfold selectPage
  have h1 : ¬ ((i : Int) < 0 ∨ (i : Int) ≥ (pages.Chapter.Data.length : Int)) := by omega
  have h2 : (pages.Chapter.DataSaver.length : Int) > (i : Int) := by omega
  simp only [h1, if_false, h2, and_self, if_true, indexAt_natCast _ i hs]

theorem selectPage_standard (pages : ChapterPages) (quality : String) (i : Nat)
    (hd : i < pages.Chapter.Data.length)
    (htier : quality ≠ "data-saver" ∨ pages.Chapter.DataSaver.length ≤ i) :
    selectPage pages quality (i : Int) =
      Except.ok (pages.BaseURL ++ "/data/" ++ pages.Chapter.Hash ++ "/" ++
        pages.Chapter.Data.get ⟨i, hd⟩) := by
  unfold selectPage
  have h1 : ¬ ((i : Int) < 0 ∨ (i : Int) ≥ (pages.Chapter.Data.length : Int)) := by omega
  have h2 : ¬ (quality = "data-saver" ∧ (pages.Chapter.DataSaver.length : Int) > (i : Int)) := by
    rintro ⟨hq, hl⟩
    rcases htier with h | h
    · exact h hq
    · omega
  simp only [h1, if_false, h2, indexAt_natCast _ i hd]

theorem selectPage_no_panic (pages : ChapterPages) (quality : String) (i : Int) :
    selectPage pages quality i ≠ Except.error SelectError.indexOutOfRange := by
  by_cases h : i < 0 ∨ i ≥ (pages.Chapter.Data.length : Int)
  · rw [(selectPage_invalid_iff pages quality i).2 h]; simp
  · obtain ⟨n, rfl⟩ := Int.eq_ofNat_of_zero_le (by omega : 0 ≤ i)
    have hn : n < pages.Chapter.Data.length := by omega
    by_cases hq : quality = "data-saver" ∧ n < pages.Chapter.DataSaver.length
    · rw [hq.1, selectPage_reduced pages n hq.2 hn]; simp
    · rw [selectPage_standard pages quality n hn (by
        by_cases hq1 : quality = "data-saver"
        · right; by_contra hc; exact hq ⟨hq1, by omega⟩
        · left; exact hq1)]
      simp

theorem handler_invalid (env : Env) (fs : FS) (id pageNum : String) (q : Option String)
    (pages : ChapterPages) (hloc : GetChapterPages env id = Except.ok pages)
    (hsel : selectPage pages (DefaultQuery q "data") (Atoi pageNum).1 =
      Except.error SelectError.invalidPage) :
    downloadHandler env fs id pageNum q =
      ⟨Response.json 400 "Invalid page number", [Event.getChapterPages id], fs⟩ := by
  unfold downloadHandler
  simp only [hloc, hsel]

theorem handler_direct (env : Env) (fs : FS) (id pageNum : String) (q : Option String)
    (pages : ChapterPages) (url : String) (st : Nat) (ct : String) (body : Bytes)
    (hloc : GetChapterPages env id = Except.ok pages)
    (hsel : selectPage pages (DefaultQuery q "data") (Atoi pageNum).1 = Except.ok url)
    (hget : env.httpGet url = FetchAnswer.response st ct body) :
    downloadHandler env fs id pageNum q =
      ⟨Response.stream (if ct = "" then "image/jpeg" else ct) body,
        [Event.getChapterPages id, Event.httpGet url], fs⟩ := by
  unfold downloadHandler
  simp only [hloc, hsel, hget, List.singleton_append]

theorem handler_fallback (env : Env) (fs : FS) (id pageNum : String) (q : Option String)
    (pages : ChapterPages) (url : String) (cause : TransportCause)
    (hloc : GetChapterPages env id = Except.ok pages)
    (hsel : selectPage pages (DefaultQuery q "data") (Atoi pageNum).1 = Except.ok url)
    (hget : env.httpGet url = FetchAnswer.transportError cause) :
    downloadHandler env fs id pageNum q =
      match DownloadMangaImage env fs url (tempFileName id pageNum) with
      | (CallResult.panic, fs1) =>
        ⟨Response.recovered, [Event.getChapterPages id, Event.httpGet url,
          Event.downloadMangaImage url (tempFileName id pageNum)], fs1⟩
      | (CallResult.error _, fs1) =>
        ⟨Response.json 500 "Failed to download page", [Event.getChapterPages id,
          Event.httpGet url, Event.downloadMangaImage url (tempFileName id pageNum)], fs1⟩
      | (CallResult.ok, fs1) =>
        ⟨File env fs1 (requestPath id pageNum) (tempFileName id pageNum),
          [Event.getChapterPages id, Event.httpGet url,
          Event.downloadMangaImage url (tempFileName id pageNum),
          Event.file (tempFileName id pageNum), Event.remove (tempFileName id pageNum)],
          fs1.remove (tempFileName id pageNum)⟩ := by
  unfold downloadHandler
  simp only [hloc, hsel, hget]
  split <;> simp_all

theorem handler_fetch_once (env : Env) (fs : FS) (id pageNum : String) (q : Option String)
    (pages : ChapterPages) (url : String)
    (hloc : GetChapterPages env id = Except.ok pages)
    (hsel : selectPage pages (DefaultQuery q "data") (Atoi pageNum).1 = Except.ok url) :
    (downloadHandler env fs id pageNum q).trace.filter Event.isFetch = [Event.httpGet url] := by
  cases hget : env.httpGet url with
  | transportError cause =>
    rw [handler_fallback env fs id pageNum q pages url cause hloc hsel hget]
    split <;> rfl
  | response st ct body =>
    rw [handler_direct env fs id pageNum q pages url st ct body hloc hsel hget]
    rfl

/-! ## Selection: claims C1, C2, C3, C9 -/

/-- C1, as stated, fails: with an empty standard list and one reduced
reference, index 0 lies within the reduced list, yet the Reduced selection
is rejected as an invalid page and no fetch is made. -/
theorem C1_counterexample :
    (0 : Nat) < manifest01.Chapter.DataSaver.length ∧
    selectPage manifest01 "data-saver" ((0 : Nat) : Int) =
      Except.error SelectError.invalidPage ∧
    GetChapterPages envShortStandard "c1" = Except.ok manifest01 ∧
    Atoi "0" = (0, none) ∧
    (downloadHandler envShortStandard FS.empty "c1" "0" (some "data-saver")).response =
      Response.json 400 "Invalid page number" ∧
    (downloadHandler envShortStandard FS.empty "c1" "0" (some "data-saver")).trace =
      [Event.getChapterPages "c1"] := by
  refine ⟨by decide, rfl, rfl, by decide, rfl, rfl⟩

/-- C1 (amended): for every manifest and every index i within the reduced list
and also within the standard list, the Reduced selection (quality
"data-saver") succeeds with exactly baseURL + "/data-saver/" + hash + "/" +
reducedList[i], and the handler's one direct fetch goes to that URL. -/
theorem C1_reduced_selection (pages : ChapterPages) (i : Nat)
    (hs : i < pages.Chapter.DataSaver.length) (hd : i < pages.Chapter.Data.length) :
    selectPage pages "data-saver" (i : Int) =
      Except.ok (pages.BaseURL ++ "/data-saver/" ++ pages.Chapter.Hash ++ "/" ++
        pages.Chapter.DataSaver.get ⟨i, hs⟩) ∧
    ∀ (env : Env) (fs : FS) (id pageNum : String),
      GetChapterPages env id = Except.ok pages → (Atoi pageNum).1 = (i : Int) →
      (downloadHandler env fs id pageNum (some "data-saver")).trace.filter Event.isFetch =
        [Event.httpGet (pages.BaseURL ++ "/data-saver/" ++ pages.Chapter.Hash ++ "/" ++
          pages.Chapter.DataSaver.get ⟨i, hs⟩)] := by
  refine ⟨selectPage_reduced pages i hs hd, ?_⟩
  intro env fs id pageNum hloc hparse
  apply handler_fetch_once env fs id pageNum (some "data-saver") pages _ hloc
  rw [hparse]
  exact selectPage_reduced pages i hs hd

/-- Witness of C1 (amended): standard length 5, reduced length 3, index 1. -/
theorem C1_reduced_selection_witness :
    (1 : Nat) < manifest53.Chapter.DataSaver.length ∧
    (1 : Nat) < manifest53.Chapter.Data.length ∧
    selectPage manifest53 "data-saver" ((1 : Nat) : Int) =
      Except.ok "https://cdn.example/data-saver/h4sh/s1.jpg" ∧
    (downloadHandler envDirect FS.empty "c1" "1" (some "data-saver")).trace.filter
      Event.isFetch = [Event.httpGet "https://cdn.example/data-saver/h4sh/s1.jpg"] :=
  ⟨by decide, by decide,
    (C1_reduced_selection manifest53 1 (by decide) (by decide)).1,
    (C1_reduced_selection manifest53 1 (by decide) (by decide)).2 envDirect FS.empty "c1" "1"
      rfl (by decide)⟩

/-- C2: for every manifest and every index i within the standard list, with a
quality other than "data-saver" (tier Standard), or with "data-saver" when
the reduced list has no entry at i, the selection succeeds with exactly
baseURL + "/data/" + hash + "/" + standardList[i], and the handler's one
direct fetch goes to that URL. -/
theorem C2_standard_selection (pages : ChapterPages) (quality : String) (i : Nat)
    (hd : i < pages.Chapter.Data.length)
    (htier : quality ≠ "data-saver" ∨ pages.Chapter.DataSaver.length ≤ i) :
    selectPage pages quality (i : Int) =
      Except.ok (pages.BaseURL ++ "/data/" ++ pages.Chapter.Hash ++ "/" ++
        pages.Chapter.Data.get ⟨i, hd⟩) ∧
    ∀ (env : Env) (fs : FS) (id pageNum : String) (q : Option String),
      GetChapterPages env id = Except.ok pages → (Atoi pageNum).1 = (i : Int) →
      DefaultQuery q "data" = quality →
      (downloadHandler env fs id pageNum q).trace.filter Event.isFetch =
        [Event.httpGet (pages.BaseURL ++ "/data/" ++ pages.Chapter.Hash ++ "/" ++
          pages.Chapter.Data.get ⟨i, hd⟩)] := by
  refine ⟨selectPage_standard pages quality i hd htier, ?_⟩
  intro env fs id pageNum q hloc hparse hq
  apply handler_fetch_once env fs id pageNum q pages _ hloc
  rw [hparse, hq]
  exact selectPage_standard pages quality i hd htier

/-- Witness of C2: standard length 5 and reduced length 3, tier Reduced: index
4 gives the standard URL (by the theorem), index 1 the reduced URL; tier
Standard at index 1 gives the standard URL. -/
theorem C2_standard_selection_witness :
    (4 : Nat) < manifest53.Chapter.Data.length ∧
    ("data-saver" ≠ "data-saver" ∨ manifest53.Chapter.DataSaver.length ≤ 4) ∧
    selectPage manifest53 "data-saver" ((4 : Nat) : Int) =
      Except.ok "https://cdn.example/data/h4sh/p4.png" ∧
    (downloadHandler envDirect FS.empty "c1" "4" (some "data-saver")).trace.filter
      Event.isFetch = [Event.httpGet "https://cdn.example/data/h4sh/p4.png"] ∧
    selectPage manifest53 "data-saver" 1 =
      Except.ok "https://cdn.example/data-saver/h4sh/s1.jpg" ∧
    selectPage manifest53 (DefaultQuery none "data") 1 =
      Except.ok "https://cdn.example/data/h4sh/p1.png" ∧
    selectPage manifest53 "data-saver" 5 = Except.error SelectError.invalidPage :=
  ⟨by decide, Or.inr (by decide),
    (C2_standard_selection manifest53 "data-saver" 4 (by decide) (Or.inr (by decide))).1,
    (C2_standard_selection manifest53 "data-saver" 4 (by decide) (Or.inr (by decide))).2
      envDirect FS.empty "c1" "4" (some "data-saver") rfl (by decide) rfl,
    rfl, rfl, rfl⟩

/-- C3: for every located manifest, quality and parsed index that is out of
bounds (negative, or at least the length) for the list the quality branch
would index, the handler answers 400 "Invalid page number", and its only
external call is the manifest lookup: neither the direct fetch nor the
render fallback is invoked, and the filesystem is untouched. -/
theorem C3_out_of_bounds_rejected (env : Env) (fs : FS) (id pageNum : String)
    (q : Option String) (pages : ChapterPages)
    (hloc : GetChapterPages env id = Except.ok pages)
    (hoob : (Atoi pageNum).1 < 0 ∨
      (Atoi pageNum).1 ≥
        ((selectedList pages (DefaultQuery q "data") (Atoi pageNum).1).length : Int)) :
    (downloadHandler env fs id pageNum q).response = Response.json 400 "Invalid page number" ∧
    (downloadHandler env fs id pageNum q).trace = [Event.getChapterPages id] ∧
    (∀ e ∈ (downloadHandler env fs id pageNum q).trace,
      e.isFetch = false ∧ e.isRender = false) ∧
    (downloadHandler env fs id pageNum q).fs = fs := by
  have hbad : (Atoi pageNum).1 < 0 ∨ (Atoi pageNum).1 ≥ (pages.Chapter.Data.length : Int) := by
    rcases hoob with h | h
    · exact Or.inl h
    · unfold selectedList at h
      split at h
      · rename_i hq
        omega
      · exact Or.inr h
  rw [handler_invalid env fs id pageNum q pages hloc
    ((selectPage_invalid_iff pages _ _).2 hbad)]
  refine ⟨rfl, rfl, ?_, rfl⟩
  intro e he
  simp only [List.mem_singleton] at he
  subst he
  exact ⟨rfl, rfl⟩

/-- Witness of C3: index 5 of a manifest with five standard references. -/
theorem C3_out_of_bounds_rejected_witness :
    GetChapterPages envDirect "c1" = Except.ok manifest53 ∧
    ((Atoi "5").1 < 0 ∨ (Atoi "5").1 ≥
      ((selectedList manifest53 (DefaultQuery (some "data-saver") "data") (Atoi "5").1).length
        : Int)) ∧
    (downloadHandler envDirect FS.empty "c1" "5" (some "data-saver")).response =
      Response.json 400 "Invalid page number" ∧
    (downloadHandler envDirect FS.empty "c1" "5" (some "data-saver")).trace =
      [Event.getChapterPages "c1"] :=
  ⟨rfl, Or.inr (by decide),
    (C3_out_of_bounds_rejected envDirect FS.empty "c1" "5" (some "data-saver") manifest53 rfl
      (Or.inr (by decide))).1,
    (C3_out_of_bounds_rejected envDirect FS.empty "c1" "5" (some "data-saver") manifest53 rfl
      (Or.inr (by decide))).2.1⟩

theorem File_ne_json (env : Env) (fs : FS) (urlPath path : String) (status : Nat)
    (msg : String) : File env fs urlPath path ≠ Response.json status msg := by
  unfold File
  repeat' split
  all_goals simp

theorem handler_rejects_iff (env : Env) (fs : FS) (id pageNum : String) (q : Option String)
    (pages : ChapterPages) (hloc : GetChapterPages env id = Except.ok pages) :
    (downloadHandler env fs id pageNum q).response = Response.json 400 "Invalid page number" ↔
      ((Atoi pageNum).1 < 0 ∨ (Atoi pageNum).1 ≥ (pages.Chapter.Data.length : Int)) := by
  rw [← selectPage_invalid_iff pages (DefaultQuery q "data") (Atoi pageNum).1]
  constructor
  · intro hresp
    cases hsel : selectPage pages (DefaultQuery q "data") (Atoi pageNum).1 with
    | error e =>
      cases e with
      | invalidPage => rfl
      | indexOutOfRange => exact absurd hsel (selectPage_no_panic pages _ _)
    | ok url =>
      exfalso
      cases hget : env.httpGet url with
      | transportError cause =>
        rw [handler_fallback env fs id pageNum q pages url cause hloc hsel hget] at hresp
        split at hresp
        · simp at hresp
        · simp at hresp
        · exact File_ne_json _ _ _ _ _ _ hresp
      | response st ct body =>
        rw [handler_direct env fs id pageNum q pages url st ct body hloc hsel hget] at hresp
        simp at hresp
  · intro hsel
    rw [handler_invalid env fs id pageNum q pages hloc hsel]

/-- C9: for a located manifest the handler answers 400 "Invalid page number"
if and only if the parsed index is negative or at least the length of the
standard list; the verdict is the same for every quality and every reduced
list (any other request with the same page string and a standard list of
the same length gets the same verdict); so a Reduced request whose index
exists in the reduced list but not in the standard list is rejected; and an
accepted request indexes the list it chooses within bounds, so no slice
access is out of range. -/
theorem C9_validity_check (env : Env) (fs : FS) (id pageNum : String) (q : Option String)
    (pages : ChapterPages) (hloc : GetChapterPages env id = Except.ok pages) :
    ((downloadHandler env fs id pageNum q).response = Response.json 400 "Invalid page number" ↔
      ((Atoi pageNum).1 < 0 ∨ (Atoi pageNum).1 ≥ (pages.Chapter.Data.length : Int))) ∧
    (∀ (env2 : Env) (fs2 : FS) (id2 : String) (q2 : Option String) (pages2 : ChapterPages),
      GetChapterPages env2 id2 = Except.ok pages2 →
      pages2.Chapter.Data.length = pages.Chapter.Data.length →
      ((downloadHandler env2 fs2 id2 pageNum q2).response =
          Response.json 400 "Invalid page number" ↔
        (downloadHandler env fs id pageNum q).response =
          Response.json 400 "Invalid page number")) ∧
    ((Atoi pageNum).1 < (pages.Chapter.DataSaver.length : Int) →
      (Atoi pageNum).1 ≥ (pages.Chapter.Data.length : Int) →
      (downloadHandler env fs id pageNum (some "data-saver")).response =
        Response.json 400 "Invalid page number") ∧
    ((downloadHandler env fs id pageNum q).response ≠ Response.json 400 "Invalid page number" →
      0 ≤ (Atoi pageNum).1 ∧
      (Atoi pageNum).1 <
        ((selectedList pages (DefaultQuery q "data") (Atoi pageNum).1).length : Int) ∧
      selectPage pages (DefaultQuery q "data") (Atoi pageNum).1 ≠
        Except.error SelectError.indexOutOfRange) := by
  refine ⟨handler_rejects_iff env fs id pageNum q pages hloc, ?_, ?_, ?_⟩
  · intro env2 fs2 id2 q2 pages2 hloc2 hlen
    rw [handler_rejects_iff env fs id pageNum q pages hloc,
      handler_rejects_iff env2 fs2 id2 pageNum q2 pages2 hloc2, hlen]
  · intro _ hge
    exact (handler_rejects_iff env fs id pageNum (some "data-saver") pages hloc).2 (Or.inr hge)
  · intro hacc
    rw [Ne, handler_rejects_iff env fs id pageNum q pages hloc] at hacc
    refine ⟨by omega, ?_, selectPage_no_panic pages _ _⟩
    unfold selectedList
    split
    · rename_i hq
      omega
    · omega

/-- Witness of C9: a Reduced request for index 0 against a manifest with no
standard reference and one reduced reference is rejected. -/
theorem C9_validity_check_witness :
    GetChapterPages envShortStandard "c1" = Except.ok manifest01 ∧
    (Atoi "0").1 < (manifest01.Chapter.DataSaver.length : Int) ∧
    (Atoi "0").1 ≥ (manifest01.Chapter.Data.length : Int) ∧
    (downloadHandler envShortStandard FS.empty "c1" "0" (some "data-saver")).response =
      Response.json 400 "Invalid page number" :=
  ⟨rfl, by decide, by decide,
    (C9_validity_check envShortStandard FS.empty "c1" "0" (some "data-saver") manifest01
      rfl).2.2.1 (by decide) (by decide)⟩

/-! ## Retrieval: claims C4, C5, C6, C8 -/

theorem File_ne_stream (env : Env) (fs : FS) (urlPath path : String) (ct : String)
    (body : Bytes) : File env fs urlPath path ≠ Response.stream ct body := by
  unfold File
  repeat' split
  all_goals simp

/-- C4, as stated, fails: the image host answers 404, a non-2xx status, and
the handler streams the 404 body to the caller without invoking the render
fallback. -/
theorem C4_counterexample :
    selectPage manifest53 (DefaultQuery none "data") (Atoi "0").1 =
      Except.ok "https://cdn.example/data/h4sh/p0.png" ∧
    (∃ ct body, envNotFoundImage.httpGet "https://cdn.example/data/h4sh/p0.png" =
      FetchAnswer.response 404 ct body) ∧
    ¬ (200 ≤ 404 ∧ 404 < 300) ∧
    (downloadHandler envNotFoundImage FS.empty "c1" "0" none).response =
      Response.stream "text/html" [60, 104, 49, 62] ∧
    (downloadHandler envNotFoundImage FS.empty "c1" "0" none).trace.filter Event.isRender = [] := by
  refine ⟨rfl, ⟨_, _, rfl⟩, by decide, rfl, rfl⟩

/-- C4 (amended): for every resolved page URL, the direct fetch counts as
failed exactly when `http.Get` returns an error (connection error, timeout
or other transport error); then the render fallback is invoked on that URL
and no response body is streamed.  When `http.Get` returns a response, of
any status code, its body is streamed under its content type ("image/jpeg"
if absent) and the render fallback is not invoked. -/
theorem C4_fetch_classification (env : Env) (fs : FS) (id pageNum : String)
    (q : Option String) (pages : ChapterPages) (url : String)
    (hloc : GetChapterPages env id = Except.ok pages)
    (hsel : selectPage pages (DefaultQuery q "data") (Atoi pageNum).1 = Except.ok url) :
    (∀ cause, env.httpGet url = FetchAnswer.transportError cause →
      (downloadHandler env fs id pageNum q).trace.filter Event.isRender =
        [Event.downloadMangaImage url (tempFileName id pageNum)] ∧
      ∀ ct body, (downloadHandler env fs id pageNum q).response ≠ Response.stream ct body) ∧
    (∀ st ct body, env.httpGet url = FetchAnswer.response st ct body →
      (downloadHandler env fs id pageNum q).response =
        Response.stream (if ct = "" then "image/jpeg" else ct) body ∧
      (downloadHandler env fs id pageNum q).trace.filter Event.isRender = []) := by
  constructor
  · intro cause hget
    rw [handler_fallback env fs id pageNum q pages url cause hloc hsel hget]
    split
    · exact ⟨rfl, fun ct body => by simp⟩
    · exact ⟨rfl, fun ct body => by simp⟩
    · exact ⟨rfl, fun ct body => File_ne_stream _ _ _ _ _ _⟩
  · intro st ct body hget
    rw [handler_direct env fs id pageNum q pages url st ct body hloc hsel hget]
    exact ⟨rfl, rfl⟩

/-- Witness of C4 (amended): a timed-out fetch of page 0 goes to the render fallback. -/
theorem C4_fetch_classification_witness :
    GetChapterPages envFallback "c1" = Except.ok manifest53 ∧
    selectPage manifest53 (DefaultQuery none "data") (Atoi "0").1 =
      Except.ok "https://cdn.example/data/h4sh/p0.png" ∧
    (downloadHandler envFallback FS.empty "c1" "0" none).trace.filter Event.isRender =
      [Event.downloadMangaImage "https://cdn.example/data/h4sh/p0.png"
        (tempFileName "c1" "0")] :=
  ⟨rfl, rfl,
    ((C4_fetch_classification envFallback FS.empty "c1" "0" none manifest53
      "https://cdn.example/data/h4sh/p0.png" rfl rfl).1 TransportCause.timeout rfl).1⟩

/-- C5, as stated, fails: the page URL resolves and the direct fetch fails
with a 404 answer of the image host, a non-2xx status, yet the render
fallback is invoked zero times, not once, and the 404 body is the response. -/
theorem C5_counterexample :
    GetChapterPages envNotFoundImage "c1" = Except.ok manifest53 ∧
    selectPage manifest53 (DefaultQuery none "data") (Atoi "0").1 =
      Except.ok "https://cdn.example/data/h4sh/p0.png" ∧
    envNotFoundImage.httpGet "https://cdn.example/data/h4sh/p0.png" =
      FetchAnswer.response 404 "text/html" [60, 104, 49, 62] ∧
    ¬ (200 ≤ 404 ∧ 404 < 300) ∧
    ((downloadHandler envNotFoundImage FS.empty "c1" "0" none).trace.filter
      Event.isFetch).length = 1 ∧
    ((downloadHandler envNotFoundImage FS.empty "c1" "0" none).trace.filter
      Event.isRender).length = 0 ∧
    ((downloadHandler envNotFoundImage FS.empty "c1" "0" none).trace.filter
      Event.isRender).length ≠ 1 ∧
    (downloadHandler envNotFoundImage FS.empty "c1" "0" none).trace =
      [Event.getChapterPages "c1", Event.httpGet "https://cdn.example/data/h4sh/p0.png"] := by
  refine ⟨rfl, rfl, rfl, by decide, rfl, rfl, by decide, rfl⟩

/-- C5 (amended): for every request whose page URL resolves, the direct fetch
is attempted exactly once; if `http.Get` returns a response, of any status
code, non-2xx included, the render fallback is never invoked and the
filesystem is unchanged (no transient file); if `http.Get` returns an error
the render fallback is invoked exactly once, and when the render fails (a
panic or a write error) the request ends there with a status-500 response
and no further call. -/
theorem C5_one_attempt_each (env : Env) (fs : FS) (id pageNum : String)
    (q : Option String) (pages : ChapterPages) (url : String)
    (hloc : GetChapterPages env id = Except.ok pages)
    (hsel : selectPage pages (DefaultQuery q "data") (Atoi pageNum).1 = Except.ok url) :
    ((downloadHandler env fs id pageNum q).trace.filter Event.isFetch).length = 1 ∧
    (∀ st ct body, env.httpGet url = FetchAnswer.response st ct body →
      ((downloadHandler env fs id pageNum q).trace.filter Event.isRender).length = 0 ∧
      (downloadHandler env fs id pageNum q).fs = fs) ∧
    (∀ cause, env.httpGet url = FetchAnswer.transportError cause →
      ((downloadHandler env fs id pageNum q).trace.filter Event.isRender).length = 1 ∧
      ((DownloadMangaImage env fs url (tempFileName id pageNum)).1 ≠ CallResult.ok →
        ((downloadHandler env fs id pageNum q).response = Response.recovered ∨
          (downloadHandler env fs id pageNum q).response =
            Response.json 500 "Failed to download page") ∧
        (downloadHandler env fs id pageNum q).trace =
          [Event.getChapterPages id, Event.httpGet url,
            Event.downloadMangaImage url (tempFileName id pageNum)])) := by
  refine ⟨?_, ?_, ?_⟩
  · rw [handler_fetch_once env fs id pageNum q pages url hloc hsel]; rfl
  · intro st ct body hget
    rw [handler_direct env fs id pageNum q pages url st ct body hloc hsel hget]
    exact ⟨rfl, rfl⟩
  · intro cause hget
    rw [handler_fallback env fs id pageNum q pages url cause hloc hsel hget]
    split
    · exact ⟨rfl, fun _ => ⟨Or.inl rfl, rfl⟩⟩
    · exact ⟨rfl, fun _ => ⟨Or.inr rfl, rfl⟩⟩
    · rename_i heq
      refine ⟨rfl, fun hne => ?_⟩
      rw [heq] at hne
      exact absurd rfl hne

/-- Witness of C5 (amended): the fetch cannot connect and the browser panics:
one fetch, one render, the recovery handler's status 500, and no call after
the render. -/
theorem C5_one_attempt_each_witness :
    GetChapterPages envRenderPanics "c1" = Except.ok manifest53 ∧
    selectPage manifest53 (DefaultQuery none "data") (Atoi "2").1 =
      Except.ok "https://cdn.example/data/h4sh/p2.png" ∧
    envRenderPanics.httpGet "https://cdn.example/data/h4sh/p2.png" =
      FetchAnswer.transportError TransportCause.connection ∧
    (DownloadMangaImage envRenderPanics FS.empty "https://cdn.example/data/h4sh/p2.png"
      (tempFileName "c1" "2")).1 ≠ CallResult.ok ∧
    ((downloadHandler envRenderPanics FS.empty "c1" "2" none).trace.filter
      Event.isFetch).length = 1 ∧
    ((downloadHandler envRenderPanics FS.empty "c1" "2" none).trace.filter
      Event.isRender).length = 1 ∧
    ((downloadHandler envRenderPanics FS.empty "c1" "2" none).response = Response.recovered ∨
      (downloadHandler envRenderPanics FS.empty "c1" "2" none).response =
        Response.json 500 "Failed to download page") ∧
    (downloadHandler envRenderPanics FS.empty "c1" "2" none).trace =
      [Event.getChapterPages "c1", Event.httpGet "https://cdn.example/data/h4sh/p2.png",
        Event.downloadMangaImage "https://cdn.example/data/h4sh/p2.png"
          (tempFileName "c1" "2")] ∧
    (downloadHandler envRenderPanics FS.empty "c1" "2" none).response = Response.recovered :=
  ⟨rfl, rfl, rfl, by decide,
    (C5_one_attempt_each envRenderPanics FS.empty "c1" "2" none manifest53
      "https://cdn.example/data/h4sh/p2.png" rfl rfl).1,
    ((C5_one_attempt_each envRenderPanics FS.empty "c1" "2" none manifest53
      "https://cdn.example/data/h4sh/p2.png" rfl rfl).2.2 TransportCause.connection rfl).1,
    (((C5_one_attempt_each envRenderPanics FS.empty "c1" "2" none manifest53
      "https://cdn.example/data/h4sh/p2.png" rfl rfl).2.2 TransportCause.connection rfl).2
      (by decide)).1,
    (((C5_one_attempt_each envRenderPanics FS.empty "c1" "2" none manifest53
      "https://cdn.example/data/h4sh/p2.png" rfl rfl).2.2 TransportCause.connection rfl).2
      (by decide)).2,
    rfl⟩

/-- When the fallback writes the capture, the transient file is gone after
the request whatever `c.File` answered, and when `c.File` sends the whole
file (no ".." element and no `/index.html` ending in the request path, no
range or conditional header) the bytes served are exactly the captured
bytes. -/
theorem fallback_written_then_removed (env : Env) (fs : FS) (id pageNum : String)
    (q : Option String) (pages : ChapterPages) (url : String) (cause : TransportCause)
    (data : Bytes)
    (hloc : GetChapterPages env id = Except.ok pages)
    (hsel : selectPage pages (DefaultQuery q "data") (Atoi pageNum).1 = Except.ok url)
    (hget : env.httpGet url = FetchAnswer.transportError cause)
    (hrender : env.render url = RenderAnswer.screenshot data)
    (hwrite : env.writeFile (tempFileName id pageNum) data = WriteAnswer.ok) :
    (containsDotDot (requestPath id pageNum) = false →
      List.isSuffixOf "/index.html".data (requestPath id pageNum).data = false →
      env.serve = ServeAnswer.whole →
      (downloadHandler env fs id pageNum q).response = Response.file data) ∧
    (downloadHandler env fs id pageNum q).fs (tempFileName id pageNum) = none := by
  rw [handler_fallback env fs id pageNum q pages url cause hloc hsel hget]
  refine ⟨fun hdots hindex hserve => ?_, ?_⟩
  · simp [DownloadMangaImage, WriteFile, hrender, hwrite, File, FS.write, hdots, hindex,
      hserve]
  · simp [DownloadMangaImage, WriteFile, hrender, hwrite, FS.remove]

/-- C6 fails on the code at this input: the direct fetch fails, the capture
succeeds, and the write of the transient file fails after creating it.  The
handler answers 500 and returns without removing the file, so
temp_c1_0.jpg, absent before the request, holds one byte after it. -/
theorem C6_failed_write_leaves_file :
    tempFileName "c1" "0" = "temp_c1_0.jpg" ∧
    FS.empty "temp_c1_0.jpg" = none ∧
    (downloadHandler envWriteFails FS.empty "c1" "0" none).response =
      Response.json 500 "Failed to download page" ∧
    (downloadHandler envWriteFails FS.empty "c1" "0" none).trace =
      [Event.getChapterPages "c1", Event.httpGet "https://cdn.example/data/h4sh/p0.png",
        Event.downloadMangaImage "https://cdn.example/data/h4sh/p0.png" "temp_c1_0.jpg"] ∧
    (downloadHandler envWriteFails FS.empty "c1" "0" none).fs "temp_c1_0.jpg" = some [255] := by
  refine ⟨rfl, rfl, rfl, rfl, rfl⟩

/-- C8, as stated, fails: the metadata API answers 404 with a decodable
unknown-chapter body; `GetChapterPages` returns that body as a manifest, not
an error, and the handler goes on to selection and answers 400, not 500. -/
theorem C8_counterexample :
    envUnknownChapter.apiGet (BaseURL ++ "/at-home/server/" ++ "nope") =
      ApiAnswer.response 404 (Except.ok unknownChapterBody) ∧
    ¬ (200 ≤ 404 ∧ 404 < 300) ∧
    unknownChapterBody.Result = "error" ∧
    unknownChapterBody.Chapter.Data = [] ∧ unknownChapterBody.Chapter.DataSaver = [] ∧
    GetChapterPages envUnknownChapter "nope" = Except.ok unknownChapterBody ∧
    (downloadHandler envUnknownChapter FS.empty "nope" "0" none).response =
      Response.json 400 "Invalid page number" := by
  refine ⟨rfl, by decide, rfl, rfl, rfl, rfl, rfl⟩

/-- C8 (amended): `GetChapterPages` returns an error exactly when the
transport fails or the body cannot be decoded, and then the handler answers
500 with that error.  For an upstream answer that signals an unknown chapter
(the transport succeeds, whatever the status code, and the body decodes to a
value without page lists) it returns that value as a manifest, and the
handler proceeds to selection, where every page parameter and quality is
rejected with 400 "Invalid page number" and no fetch is made. -/
theorem C8_locate_outcomes (env : Env) (fs : FS) (id pageNum : String) (q : Option String) :
    ((∃ err, GetChapterPages env id = Except.error err) ↔
      ((∃ msg, env.apiGet (BaseURL ++ "/at-home/server/" ++ id) =
          ApiAnswer.transportError msg) ∨
        (∃ st err, env.apiGet (BaseURL ++ "/at-home/server/" ++ id) =
          ApiAnswer.response st (Except.error err)))) ∧
    (∀ err, GetChapterPages env id = Except.error err →
      (downloadHandler env fs id pageNum q).response = Response.json 500 err ∧
      (downloadHandler env fs id pageNum q).trace = [Event.getChapterPages id]) ∧
    (∀ (status : Nat) (pages : ChapterPages),
      env.apiGet (BaseURL ++ "/at-home/server/" ++ id) =
        ApiAnswer.response status (Except.ok pages) →
      pages.Chapter.Data = [] →
      GetChapterPages env id = Except.ok pages ∧
      (downloadHandler env fs id pageNum q).response =
        Response.json 400 "Invalid page number" ∧
      (downloadHandler env fs id pageNum q).trace = [Event.getChapterPages id]) := by
  refine ⟨?_, ?_, ?_⟩
  · unfold GetChapterPages
    cases hans : env.apiGet (BaseURL ++ "/at-home/server/" ++ id) with
    | transportError msg => simp [hans]
    | response st decoded =>
      cases decoded with
      | error e => simp [hans]
      | ok p => simp [hans]
  · intro err herr
    unfold downloadHandler
    simp [herr]
  · intro status pages hans hempty
    have hloc : GetChapterPages env id = Except.ok pages := by
      unfold GetChapterPages
      simp only [hans]
    have hbad : (Atoi pageNum).1 < 0 ∨ (Atoi pageNum).1 ≥ (pages.Chapter.Data.length : Int) := by
      rw [hempty]
      simp only [List.length_nil, Nat.cast_zero]
      omega
    rw [handler_invalid env fs id pageNum q pages hloc
      ((selectPage_invalid_iff pages _ _).2 hbad)]
    exact ⟨hloc, rfl, rfl⟩

/-! ## Transient file name: claim C7 -/

theorem split_at_first (sep : Char) :
    ∀ (a b p r : List Char), sep ∉ a → sep ∉ b →
      a ++ sep :: p = b ++ sep :: r → a = b ∧ p = r := by
  intro a
  induction a with
  | nil =>
    intro b p r _ hb h
    cases b with
    | nil => simpa using h
    | cons y b =>
      simp only [List.nil_append, List.cons_append, List.cons.injEq] at h
      exact absurd (by rw [h.1]; exact List.mem_cons_self _ _) hb
  | cons x a ih =>
    intro b p r ha hb h
    cases b with
    | nil =>
      simp only [List.nil_append, List.cons_append, List.cons.injEq] at h
      exact absurd (by rw [← h.1]; exact List.mem_cons_self _ _) ha
    | cons y b =>
      simp only [List.cons_append, List.cons.injEq] at h
      have ha2 : sep ∉ a := fun hm => ha (List.mem_cons_of_mem _ hm)
      have hb2 : sep ∉ b := fun hm => hb (List.mem_cons_of_mem _ hm)
      obtain ⟨h1, h2⟩ := ih b p r ha2 hb2 h.2
      exact ⟨by rw [h.1, h1], h2⟩

theorem split_at_last (sep : Char) (a b p r : List Char) (hp : sep ∉ p) (hr : sep ∉ r)
    (h : a ++ sep :: p = b ++ sep :: r) : a = b ∧ p = r := by
  have h2 := congrArg List.reverse h
  simp only [List.reverse_append, List.reverse_cons, List.append_assoc,
    List.singleton_append] at h2
  obtain ⟨h3, h4⟩ := split_at_first sep p.reverse r.reverse a.reverse b.reverse
    (by simpa using hp) (by simpa using hr) h2
  exact ⟨List.reverse_injective h4, List.reverse_injective h3⟩

theorem tempFileName_data (id pageNum : String) :
    (tempFileName id pageNum).data =
      "temp_".data ++ (id.data ++ '_' :: (pageNum.data ++ ".jpg".data)) := by
  simp [tempFileName, String.data_append]

/-- C7, as stated, fails: chapter "a_b" with page "c" and chapter "a" with
page "b_c" are different pairs with the same transient file name. -/
theorem C7_counterexample :
    (("a_b", "c") : String × String) ≠ ("a", "b_c") ∧
    tempFileName "a_b" "c" = tempFileName "a" "b_c" ∧
    tempFileName "a_b" "c" = "temp_a_b_c.jpg" := by
  refine ⟨by decide, by decide, by decide⟩

/-- C7 (amended): if neither chapter identifier contains an underscore, or
neither page parameter contains one (as when both are decimal numbers), then
different (chapter, page) pairs have different transient file names. -/
theorem C7_name_injective (id1 page1 id2 page2 : String)
    (hclean : ('_' ∉ id1.data ∧ '_' ∉ id2.data) ∨ ('_' ∉ page1.data ∧ '_' ∉ page2.data))
    (hne : (id1, page1) ≠ (id2, page2)) :
    tempFileName id1 page1 ≠ tempFileName id2 page2 := by
  intro heq
  apply hne
  have h := congrArg String.data heq
  rw [tempFileName_data, tempFileName_data] at h
  have h1 := List.append_cancel_left h
  have key : id1.data = id2.data ∧ page1.data = page2.data := by
    rcases hclean with ⟨ha, hb⟩ | ⟨hp, hr⟩
    · obtain ⟨e1, e2⟩ := split_at_first '_' _ _ _ _ ha hb h1
      exact ⟨e1, List.append_cancel_right e2⟩
    · have h2 : (id1.data ++ '_' :: page1.data) ++ ".jpg".data =
          (id2.data ++ '_' :: page2.data) ++ ".jpg".data := by
        simpa [List.append_assoc] using h1
      exact split_at_last '_' _ _ _ _ hp hr (List.append_cancel_right h2)
  rw [Prod.mk.injEq]
  exact ⟨String.ext key.1, String.ext key.2⟩

/-- Witness of C7 (amended): two pages of one chapter, identifiers without underscore. -/
theorem C7_name_injective_witness :
    (('_' ∉ "c1".data ∧ '_' ∉ "c1".data) ∨ ('_' ∉ "0".data ∧ '_' ∉ "1".data)) ∧
    (("c1", "0") : String × String) ≠ ("c1", "1") ∧
    tempFileName "c1" "0" ≠ tempFileName "c1" "1" :=
  ⟨Or.inl ⟨by decide, by decide⟩, by decide,
    C7_name_injective "c1" "0" "c1" "1" (Or.inl ⟨by decide, by decide⟩) (by decide)⟩

/-! ## The page parameter: claim C10 -/

theorem atoiFastLoop_none (cs : List Char) :
    ∀ n : Nat, cs.all isDigit = false → atoiFastLoop cs n = none := by
  induction cs with
  | nil => intro n h; simp at h
  | cons c rest ih =>
    intro n h
    unfold atoiFastLoop
    by_cases hc : isDigit c = true
    · simp only [hc, if_true]
      apply ih
      simpa [List.all_cons, hc] using h
    · simp [hc]

theorem decimalValueFrom_ge (cs : List Char) : ∀ n : Nat, n ≤ decimalValueFrom n cs := by
  induction cs with
  | nil => intro n; exact Nat.le_refl n
  | cons c rest ih =>
    intro n
    have h := ih (n * 10 + digitVal c)
    simp only [decimalValueFrom, List.foldl_cons] at h ⊢
    omega

theorem parseUintLoop_syntax (cs : List Char) :
    ∀ n : Nat, cs.all isDigit = false →
      decimalValueFrom n (cs.takeWhile isDigit) < 2 ^ 64 →
      parseUintLoop cs n = (0, some NumError.ErrSyntax) := by
  induction cs with
  | nil => intro n h; simp at h
  | cons c rest ih =>
    intro n h hv
    unfold parseUintLoop
    by_cases hc : isDigit c = true
    · have hrest : rest.all isDigit = false := by simpa [List.all_cons, hc] using h
      have hv2 : decimalValueFrom (n * 10 + digitVal c) (rest.takeWhile isDigit) < 2 ^ 64 := by
        simpa [List.takeWhile_cons, hc, decimalValueFrom] using hv
      have hm := decimalValueFrom_ge (rest.takeWhile isDigit) (n * 10 + digitVal c)
      have hlt : n * 10 + digitVal c < 2 ^ 64 := lt_of_le_of_lt hm hv2
      have e1 : n * 10 % 2 ^ 64 = n * 10 := Nat.mod_eq_of_lt (by omega)
      have e2 : (n * 10 + digitVal c) % 2 ^ 64 = n * 10 + digitVal c := Nat.mod_eq_of_lt hlt
      have hcut : ¬ (n ≥ maxUint64 / 10 + 1) := by
        norm_num [maxUint64] at hlt ⊢
        omega
      have hwrap : ¬ (n * 10 + digitVal c < n * 10 ∨ n * 10 + digitVal c > maxUint64) := by
        norm_num [maxUint64] at hlt ⊢
        omega
      simp only [hc, if_true, hcut, if_false, e1, e2, hwrap]
      exact ih _ hrest hv2
    · simp [hc]

theorem Atoi_syntax (s : String) (h : isDecimal s = false)
    (hv : decimalValueFrom 0 (leadingDigits s) < 2 ^ 64) :
    Atoi s = (0, some NumError.ErrSyntax) := by
  unfold isDecimal at h
  unfold leadingDigits at hv
  unfold Atoi
  cases hd : s.data with
  | nil => simp [ParseInt]
  | cons c0 rest =>
    rw [hd] at h hv
    simp only [unsignedPart] at h hv
    by_cases hfast : 0 < s.utf8ByteSize ∧ s.utf8ByteSize < 19
    · simp only [hfast, and_self, if_true]
      by_cases hs : isSign c0 = true
      · simp only [hs, if_true] at h hv ⊢
        cases rest with
        | nil => simp
        | cons r0 rest2 =>
          have hall : (r0 :: rest2).all isDigit = false := by simpa using h
          simp [atoiFastLoop_none _ 0 hall]
      · simp only [hs] at h hv ⊢
        have hall : (c0 :: rest).all isDigit = false := by simpa using h
        simp [atoiFastLoop_none _ 0 hall]
    · simp only [hfast, if_false]
      unfold ParseInt
      have hsign : (c0 == '+' || c0 == '-') = isSign c0 := by
        unfold isSign; exact Bool.or_comm _ _
      simp only [hsign]
      by_cases hs : isSign c0 = true
      · simp only [hs, if_true] at h hv ⊢
        cases rest with
        | nil => simp [ParseUint]
        | cons r0 rest2 =>
          have hall : (r0 :: rest2).all isDigit = false := by simpa using h
          simp [ParseUint, parseUintLoop_syntax _ 0 hall hv]
      · simp only [hs] at h hv ⊢
        have hall : (c0 :: rest).all isDigit = false := by simpa using h
        simp [ParseUint, parseUintLoop_syntax _ 0 hall hv]

/-- C10, as stated, fails: "99999999999999999999x" is no valid decimal
integer, yet its digits overflow before the invalid byte is read, so the
parse yields the clamped value 2^63 - 1 with a range error instead of 0,
and the request is rejected as an invalid page although the standard list
is not empty. -/
theorem C10_counterexample :
    isDecimal "99999999999999999999x" = false ∧
    Atoi "99999999999999999999x" = (9223372036854775807, some NumError.ErrRange) ∧
    GetChapterPages envDirect "c1" = Except.ok manifest53 ∧
    manifest53.Chapter.Data ≠ [] ∧
    (downloadHandler envDirect FS.empty "c1" "99999999999999999999x" none).response =
      Response.json 400 "Invalid page number" := by
  refine ⟨by decide, by decide, rfl, by decide, rfl⟩

/-- C10 (amended): the parse error of the page parameter is discarded.  For
every page string that is not a valid decimal integer (an optional sign
followed by one or more digits) and whose leading digits stay below 2^64,
the parse yields 0 with a syntax error, so for every located manifest with a
non-empty standard list the request is not rejected as an invalid page and
the one direct fetch goes to the URL that selection resolves for page 0.  A
string that parses to a negative integer is rejected with 400 "Invalid page
number" and no fetch. -/
theorem C10_page_parameter (env : Env) (fs : FS) (id pageNum : String) (q : Option String)
    (pages : ChapterPages) (hloc : GetChapterPages env id = Except.ok pages) :
    (isDecimal pageNum = false → decimalValueFrom 0 (leadingDigits pageNum) < 2 ^ 64 →
      Atoi pageNum = (0, some NumError.ErrSyntax) ∧
      (pages.Chapter.Data ≠ [] →
        (downloadHandler env fs id pageNum q).response ≠
          Response.json 400 "Invalid page number" ∧
        ∃ url, selectPage pages (DefaultQuery q "data") 0 = Except.ok url ∧
          (downloadHandler env fs id pageNum q).trace.filter Event.isFetch =
            [Event.httpGet url])) ∧
    ((Atoi pageNum).1 < 0 →
      (downloadHandler env fs id pageNum q).response =
        Response.json 400 "Invalid page number" ∧
      (downloadHandler env fs id pageNum q).trace = [Event.getChapterPages id]) := by
  constructor
  · intro hbad hfit
    have hparse := Atoi_syntax pageNum hbad hfit
    refine ⟨hparse, fun hne => ?_⟩
    have hpos : 0 < pages.Chapter.Data.length := List.length_pos.2 hne
    have hidx : (Atoi pageNum).1 = 0 := by rw [hparse]
    have hacc : ¬ ((Atoi pageNum).1 < 0 ∨
        (Atoi pageNum).1 ≥ (pages.Chapter.Data.length : Int)) := by
      rw [hidx]; omega
    refine ⟨fun hrej => hacc ((handler_rejects_iff env fs id pageNum q pages hloc).1 hrej), ?_⟩
    cases hsel : selectPage pages (DefaultQuery q "data") 0 with
    | error e =>
      exfalso
      cases e with
      | invalidPage =>
        have h0 := (selectPage_invalid_iff pages (DefaultQuery q "data") 0).1 hsel
        omega
      | indexOutOfRange => exact selectPage_no_panic pages _ _ hsel
    | ok url =>
      refine ⟨url, rfl, ?_⟩
      apply handler_fetch_once env fs id pageNum q pages url hloc
      rw [hidx]
      exact hsel
  · intro hneg
    rw [handler_invalid env fs id pageNum q pages hloc
      ((selectPage_invalid_iff pages _ _).2 (Or.inl hneg))]
    exact ⟨rfl, rfl⟩

/-- Witness of C10 (amended): "abc" and the empty string give page 0; "-1" is rejected. -/
theorem C10_page_parameter_witness :
    GetChapterPages envDirect "c1" = Except.ok manifest53 ∧
    isDecimal "abc" = false ∧ decimalValueFrom 0 (leadingDigits "abc") < 2 ^ 64 ∧
    Atoi "abc" = (0, some NumError.ErrSyntax) ∧
    isDecimal "" = false ∧
    Atoi "" = (0, some NumError.ErrSyntax) ∧
    (downloadHandler envDirect FS.empty "c1" "abc" none).trace.filter Event.isFetch =
      [Event.httpGet "https://cdn.example/data/h4sh/p0.png"] ∧
    (downloadHandler envDirect FS.empty "c1" "" none).trace.filter Event.isFetch =
      [Event.httpGet "https://cdn.example/data/h4sh/p0.png"] ∧
    (Atoi "-1").1 < 0 ∧
    (downloadHandler envDirect FS.empty "c1" "-1" none).response =
      Response.json 400 "Invalid page number" :=
  ⟨rfl, by decide, by decide,
    ((C10_page_parameter envDirect FS.empty "c1" "abc" none manifest53 rfl).1
      (by decide) (by decide)).1,
    by decide,
    ((C10_page_parameter envDirect FS.empty "c1" "" none manifest53 rfl).1
      (by decide) (by decide)).1,
    rfl, rfl, by decide,
    ((C10_page_parameter envDirect FS.empty "c1" "-1" none manifest53 rfl).2 (by decide)).1⟩

/-- Witness of C8 (amended): the unknown-chapter answer with status 404. -/
theorem C8_locate_outcomes_witness :
    envUnknownChapter.apiGet (BaseURL ++ "/at-home/server/" ++ "nope") =
      ApiAnswer.response 404 (Except.ok unknownChapterBody) ∧
    unknownChapterBody.Chapter.Data = [] ∧
    GetChapterPages envUnknownChapter "nope" = Except.ok unknownChapterBody ∧
    (downloadHandler envUnknownChapter FS.empty "nope" "3" (some "data-saver")).response =
      Response.json 400 "Invalid page number" :=
  ⟨rfl, rfl,
    ((C8_locate_outcomes envUnknownChapter FS.empty "nope" "3" (some "data-saver")).2.2 404
      unknownChapterBody rfl rfl).1,
    ((C8_locate_outcomes envUnknownChapter FS.empty "nope" "3" (some "data-saver")).2.2 404
      unknownChapterBody rfl rfl).2.1⟩

end MangaDex
